import Mathlib

/-!
A shallow embedding of the frame-lifecycle core of the `vulkan-tutorial`
repository (files `src/app.rs`, `src/commandbuffer.rs`, `src/main.rs`).

The embedding models the state that the frame scheduler manipulates
(`App` / `AppData` fields: the rotating frame slot, the resize flag, the
in-flight fences, the images-in-flight table, the primary and secondary
command-buffer lists, the swapchain image count) and the operations
`App::render`, `App::recreate_swapchain`, `App::update_command_buffer`,
`App::update_secondary_command_buffer`, `create_command_buffers` and
`get_memory_type_index`.  Vulkan handles are modelled as natural numbers
(`0` is the null handle, as in `vk::Fence::null()`); driver responses
(image acquisition, presentation outcome, the image count chosen by
`create_swapchain`) are inputs supplied by a `RenderEnv`; the Vulkan calls
that `render` issues are recorded in an event trace so that ordering
properties ("waits on the fence before submitting") can be stated.
-/

/-- A `vk::Fence` handle.  `vk::Fence::null()` is the zero handle and
`Handle::is_null` tests for it. -/
structure Fence where
  handle : Nat
deriving DecidableEq, Repr

def Fence.null : Fence := ⟨0⟩

def Fence.isNull (f : Fence) : Bool := f.handle == 0

/-- `MAX_FRAMES_IN_FLIGHT` (app.rs line 36). -/
def MAX_FRAMES_IN_FLIGHT : Nat := 2

/-- Rust `Vec::resize(n, pad)` / `Vec::resize_with(n, f)` semantics: truncate
when the new length is smaller, extend with `pad` when it is larger.  Existing
elements below the new length are kept unchanged. -/
def listResize {α : Type} (l : List α) (n : Nat) (pad : α) : List α :=
  if n ≤ l.length then l.take n else l ++ List.replicate (n - l.length) pad

/-- Handles handed out by `allocate_command_buffers`: `n` fresh consecutive
handles starting at `start`. -/
def freshHandles (start n : Nat) : List Nat :=
  (List.range n).map (fun i => start + i)

/-- The body of the `while model_index >= command_buffers.len()` loop of
`App::update_secondary_command_buffer` (app.rs lines 373-381), run a fixed
number of times: each iteration allocates one fresh secondary command buffer
and pushes it. -/
def growGo : Nat → List Nat → Nat → List Nat × Nat
  | 0, inner, next => (inner, next)
  | fuel + 1, inner, next => growGo fuel (inner ++ [next]) (next + 1)

/-- The `while model_index >= command_buffers.len()` loop of
`App::update_secondary_command_buffer`: it pushes exactly
`model_index + 1 - len` fresh buffers (none when the list already covers
`model_index`), which `growGo` performs iteration by iteration. -/
def growTo (inner : List Nat) (next modelIndex : Nat) : List Nat × Nat :=
  growGo (modelIndex + 1 - inner.length) inner next

/-- The fields of `AppData` (main.rs / app.rs) that the frame scheduler and
command recorder manipulate.  Handles that the modelled claims never inspect
(surface, pipeline, semaphores, textures, …) are omitted. -/
structure AppData where
  /-- length of `data.swapchain_images`, set by `create_swapchain`. -/
  swapchainImageCount : Nat
  /-- `data.images_in_flight`: swapchain image index → owning fence. -/
  imagesInFlight : List Fence
  /-- `data.in_flight_fences`: one per frame slot. -/
  inFlightFences : List Fence
  /-- `data.command_buffers`: primary command buffers. -/
  commandBuffers : List Nat
  /-- `data.command_pools`: one per swapchain image. -/
  commandPools : List Nat
  /-- `data.secondary_command_buffers`: per image, per model. -/
  secondaryCommandBuffers : List (List Nat)
  /-- next unused handle, used to model fresh allocation. -/
  nextHandle : Nat
deriving DecidableEq, Repr

/-- The `App` struct (app.rs lines 38-48), restricted to the fields the
frame scheduler reads or writes. -/
structure App where
  data : AppData
  frame : Nat
  resized : Bool
  models : Nat
deriving DecidableEq, Repr

/-- Result of `acquire_next_image_khr` as matched in `App::render`
(app.rs lines 202-206): an image index, `ERROR_OUT_OF_DATE_KHR`, or any
other error code. -/
inductive AcquireResult where
  | ok (imageIndex : Nat)
  | outOfDate
  | err (code : Nat)
deriving DecidableEq, Repr

/-- Result of `queue_present_khr` as tested in `App::render`
(app.rs lines 255-262). -/
inductive PresentOutcome where
  | success
  | suboptimal
  | outOfDate
  | err (code : Nat)
deriving DecidableEq, Repr

/-- `changed` (app.rs lines 255-256): presentation returned
`Ok(SUBOPTIMAL_KHR)` or `Err(OUT_OF_DATE_KHR)`. -/
def presentChanged : PresentOutcome → Bool
  | PresentOutcome.suboptimal => true
  | PresentOutcome.outOfDate => true
  | _ => false

/-- Driver/window responses consumed during one `render` call: the
acquisition result, the presentation outcome, and the image count the driver
picks when `create_swapchain` runs during recreation. -/
structure RenderEnv where
  acquire : AcquireResult
  present : PresentOutcome
  newImageCount : Nat
deriving DecidableEq, Repr

/-- Vulkan calls issued by `render`, recorded in order. -/
inductive RenderEvent where
  | waitFence (f : Fence)
  | acquireImage
  | recordPrimary (imageIndex : Nat)
  | uniformWrite (imageIndex : Nat)
  | resetFence (f : Fence)
  | submit (imageIndex : Nat) (f : Fence) (cb : Nat)
  | present (imageIndex : Nat)
  | deviceWaitIdle
deriving DecidableEq, Repr

/-- `create_command_buffers` (commandbuffer.rs lines 76-92): for each
swapchain image, allocates one primary command buffer and PUSHES it onto
`data.command_buffers` (the list is not cleared first), then replaces
`data.secondary_command_buffers` with one empty list per image. -/
def createCommandBuffers (d : AppData) : AppData :=
  let n := d.swapchainImageCount
  { d with
    commandBuffers := d.commandBuffers ++ freshHandles d.nextHandle n
    nextHandle := d.nextHandle + n
    secondaryCommandBuffers := List.replicate n [] }

/-- `App::recreate_swapchain` (app.rs lines 473-498): `device_wait_idle`,
destroy the old swapchain group, recreate the swapchain (the driver reports
`newImageCount` images), views, render pass, pipeline, attachments,
framebuffers, uniform buffers, descriptors, then `create_command_buffers`,
and finally `images_in_flight.resize(swapchain_images.len(), Fence::null())`. -/
def recreateSwapchain (env : RenderEnv) (a : App) : App × List RenderEvent :=
  let d0 := { a.data with swapchainImageCount := env.newImageCount }
  let d1 := createCommandBuffers d0
  let d2 := { d1 with
    imagesInFlight := listResize d1.imagesInFlight d1.swapchainImageCount Fence.null }
  ({ a with data := d2 }, [RenderEvent.deviceWaitIdle])

/-- `App::update_secondary_command_buffer` (app.rs lines 364-471), state
part: `secondary_command_buffers.resize_with(image_index + 1, Vec::new)`,
then the while-loop grows the inner list for `image_index` until it covers
`model_index`, allocating fresh buffers; returns the buffer at
`model_index` (which is then re-recorded — recording does not change the
modelled state). -/
def updateSecondaryCommandBuffer (d : AppData) (imageIndex modelIndex : Nat) :
    AppData × Nat :=
  let outer := listResize d.secondaryCommandBuffers (imageIndex + 1) []
  let inner := outer.getD imageIndex []
  let grown := growTo inner d.nextHandle modelIndex
  let outer2 := outer.set imageIndex grown.1
  ({ d with secondaryCommandBuffers := outer2, nextHandle := grown.2 },
   grown.1.getD modelIndex 0)

/-- `App::update_command_buffer` (app.rs lines 312-362): resets the
per-image pool, begins the primary buffer and the render pass, then calls
`update_secondary_command_buffer(image_index, i)` for `i in 0..self.models`,
executes the secondaries, and ends the buffer.  Only the secondary-buffer
bookkeeping changes modelled state. -/
def updateCommandBuffer (a : App) (imageIndex : Nat) : App :=
  let d := (List.range a.models).foldl
    (fun d i => (updateSecondaryCommandBuffer d imageIndex i).1) a.data
  { a with data := d }

/-- The part of `App::render` (app.rs lines 208-266) that runs after
`acquire_next_image_khr` returned image index `k`: the cross-frame hazard
wait, the images-in-flight claim, command-buffer re-recording, the uniform
write, fence reset, queue submission, presentation, the
recreate-on-stale/resize check, and the frame-counter advance. -/
def renderAcquired (env : RenderEnv) (a : App) (k : Nat) :
    Except Nat Unit × App × List RenderEvent :=
  let fenceF := a.data.inFlightFences.getD a.frame Fence.null
  let hazard := a.data.imagesInFlight.getD k Fence.null
  let hazardEvs := if hazard.isNull then [] else [RenderEvent.waitFence hazard]
  let a1 : App := { a with data := { a.data with
    imagesInFlight := a.data.imagesInFlight.set k fenceF } }
  let a2 := updateCommandBuffer a1 k
  let cb := a2.data.commandBuffers.getD k 0
  let mainEvs := hazardEvs ++
    [RenderEvent.recordPrimary k, RenderEvent.uniformWrite k,
     RenderEvent.resetFence fenceF, RenderEvent.submit k fenceF cb,
     RenderEvent.present k]
  if a2.resized || presentChanged env.present then
    let ar := recreateSwapchain env a2
    (Except.ok (),
     { ar.1 with frame := (ar.1.frame + 1) % MAX_FRAMES_IN_FLIGHT },
     mainEvs ++ ar.2)
  else
    match env.present with
    | PresentOutcome.err e => (Except.error e, a2, mainEvs)
    | _ =>
      (Except.ok (),
       { a2 with frame := (a2.frame + 1) % MAX_FRAMES_IN_FLIGHT },
       mainEvs)

/-- `App::render` (app.rs lines 184-267): wait on the current frame slot's
in-flight fence, acquire an image (`OUT_OF_DATE_KHR` returns
`recreate_swapchain`'s result at once; any other error is returned), then
continue with `renderAcquired`. -/
def render (env : RenderEnv) (a : App) :
    Except Nat Unit × App × List RenderEvent :=
  let fenceF := a.data.inFlightFences.getD a.frame Fence.null
  let startEvs := [RenderEvent.waitFence fenceF, RenderEvent.acquireImage]
  match env.acquire with
  | AcquireResult.outOfDate =>
    let ar := recreateSwapchain env a
    (Except.ok (), ar.1, startEvs ++ ar.2)
  | AcquireResult.err e => (Except.error e, a, startEvs)
  | AcquireResult.ok k =>
    let r := renderAcquired env a k
    (r.1, r.2.1, startEvs ++ r.2.2)

/-- `VK_MEMORY_PROPERTY_DEVICE_LOCAL_BIT`. -/
def DEVICE_LOCAL : Nat := 1

/-- `VK_MEMORY_PROPERTY_HOST_VISIBLE_BIT`. -/
def HOST_VISIBLE : Nat := 2

/-- `VK_MEMORY_PROPERTY_HOST_COHERENT_BIT`. -/
def HOST_COHERENT : Nat := 4

/-- `vk::MemoryPropertyFlags::contains`: every bit of `props` is set in
`flags`. -/
def flagsContains (flags props : Nat) : Bool := flags &&& props == props

/-- The predicate inside the closure of `get_memory_type_index`
(main.rs lines 1243-1248): bit `i` of `requirements.memory_type_bits` is
set and memory type `i`'s property flags contain the requested flags. -/
def memoryTypeSuits (memoryTypes : List Nat) (properties memoryTypeBits i : Nat) :
    Bool :=
  (memoryTypeBits &&& (1 <<< i) != 0) && flagsContains (memoryTypes.getD i 0) properties

/-- `get_memory_type_index` (main.rs lines 1235-1250):
`(0..memory.memory_type_count).find(...)` — the first (smallest) index
whose memory type is suitable, `None` (an error in the source) when no
index is. `memoryTypes` lists each memory type's property flags, so
`memoryTypes.length` is `memory_type_count`. -/
def getMemoryTypeIndex (memoryTypes : List Nat) (properties memoryTypeBits : Nat) :
    Option Nat :=
  (List.range memoryTypes.length).find?
    (fun i => memoryTypeSuits memoryTypes properties memoryTypeBits i)

/-- 4×4 matrices over ℚ.  The `f32` arithmetic that
`App::update_secondary_command_buffer` performs on the translation
components is exact for the model indices the app uses (`models ≤ 4`), so
the rational model is bit-faithful there; the rotation's cosine and sine
are kept symbolic. -/
def Mat4 : Type := Fin 4 → Fin 4 → ℚ

/-- Entrywise 4×4 matrix product (glm `operator*`). -/
def matMul (A B : Mat4) : Mat4 := fun i j =>
  A i 0 * B 0 j + A i 1 * B 1 j + A i 2 * B 2 j + A i 3 * B 3 j

/-- `glm::identity()`. -/
def identityMat : Mat4 := fun i j => if i = j then 1 else 0

/-- The affine translation matrix `T(v)` with `glm::translate(&m, &v)`
being `m * T(v)`: identity except column 3 holds `(x, y, z, 1)`. -/
def translationMat (x y z : ℚ) : Mat4 := fun i j =>
  if j = 3 then (if i = 0 then x else if i = 1 then y else if i = 2 then z else 1)
  else if i = j then 1 else 0

/-- The rotation matrix about the axis `(0, 0, 1)` used by
`glm::rotate(&m, angle, &vec3(0.0, 0.0, 1.0))`, with `c`/`s` standing for
the cosine and sine of the angle. -/
def rotZMat (c s : ℚ) : Mat4 := fun i j =>
  if i = 0 ∧ j = 0 then c
  else if i = 0 ∧ j = 1 then -s
  else if i = 1 ∧ j = 0 then s
  else if i = 1 ∧ j = 1 then c
  else if i = j then 1 else 0

/-- `let y = (((model_index % 2) as f32) * 2.5) - 1.25` (app.rs line 385);
`2.5 = 5/2`, `1.25 = 5/4`. -/
def modelY (modelIndex : Nat) : ℚ := ((modelIndex % 2 : Nat) : ℚ) * (5 / 2) - 5 / 4

/-- `let z = (((model_index / 2) as f32) * -2.0) + 1.0` (app.rs line 386). -/
def modelZ (modelIndex : Nat) : ℚ := ((modelIndex / 2 : Nat) : ℚ) * (-2) + 1

/-- The angle passed to `glm::rotate` (app.rs line 397) is
`time * radians(90°)`, i.e. 90 degrees per second of elapsed time; recorded
here in degrees. -/
def rotationAngleDegrees (time : ℚ) : ℚ := time * 90

/-- The per-model placement matrix built in
`App::update_secondary_command_buffer` (app.rs lines 385-399):
`glm::translate(&glm::identity(), &vec3(0.0, y, z))` followed by
`glm::rotate(&model, time * radians(90°), &vec3(0.0, 0.0, 1.0))`, with
`c`/`s` the cosine and sine of the rotation angle. -/
def modelPlacementMat (modelIndex : Nat) (c s : ℚ) : Mat4 :=
  matMul (matMul identityMat (translationMat 0 (modelY modelIndex) (modelZ modelIndex)))
    (rotZMat c s)

/-- Event classifier: a queue submission. -/
def isSubmitEvent : RenderEvent → Bool
  | RenderEvent.submit _ _ _ => true
  | _ => false

/-- Event classifier: a queue submission of image `k`. -/
def isSubmitTo (k : Nat) : RenderEvent → Bool
  | RenderEvent.submit j _ _ => j == k
  | _ => false

/-- Event classifier: a queue submission of image `k` whose primary command
buffer is `cb`. -/
def isSubmitWithCb (k cb : Nat) : RenderEvent → Bool
  | RenderEvent.submit j _ c => j == k && c == cb
  | _ => false

/-- Event classifier: a presentation request. -/
def isPresentEvent : RenderEvent → Bool
  | RenderEvent.present _ => true
  | _ => false

/-- Event classifier: a fence reset. -/
def isResetFenceEvent : RenderEvent → Bool
  | RenderEvent.resetFence _ => true
  | _ => false

/-- Event classifier: a uniform-buffer write. -/
def isUniformWriteEvent : RenderEvent → Bool
  | RenderEvent.uniformWrite _ => true
  | _ => false

/-- Event classifier: re-recording of a primary command buffer. -/
def isRecordEvent : RenderEvent → Bool
  | RenderEvent.recordPrimary _ => true
  | _ => false

/-- Event classifier: `device_wait_idle`, issued only by
`recreate_swapchain`, hence marks a swapchain recreation. -/
def isIdleEvent : RenderEvent → Bool
  | RenderEvent.deviceWaitIdle => true
  | _ => false

/-- `true` iff the trace waits on fence `f` strictly before its first queue
submission (scans until a submission is reached). -/
def waitBeforeSubmit (f : Fence) : List RenderEvent → Bool
  | [] => false
  | RenderEvent.waitFence g :: rest => g == f || waitBeforeSubmit f rest
  | RenderEvent.submit _ _ _ :: _ => false
  | _ :: rest => waitBeforeSubmit f rest

/-- `true` iff the trace contains a queue submission strictly before its
first `device_wait_idle` (i.e. this frame's work was submitted before any
swapchain recreation started). -/
def submitBeforeIdle : List RenderEvent → Bool
  | [] => false
  | RenderEvent.submit _ _ _ :: _ => true
  | RenderEvent.deviceWaitIdle :: _ => false
  | _ :: rest => submitBeforeIdle rest

/-- `true` iff the trace contains a presentation request strictly before its
first `device_wait_idle`. -/
def presentBeforeIdle : List RenderEvent → Bool
  | [] => false
  | RenderEvent.present _ :: _ => true
  | RenderEvent.deviceWaitIdle :: _ => false
  | _ :: rest => presentBeforeIdle rest

theorem listResize_length {α : Type} (l : List α) (n : Nat) (pad : α) :
    (listResize l n pad).length = n := by
  unfold listResize
  split
  · simp
    omega
  · simp
    omega

theorem listResize_getD_keep {α : Type} (l : List α) (n i : Nat) (pad d : α)
    (hi : i < n) (hl : i < l.length) :
    (listResize l n pad).getD i d = l.getD i d := by
  unfold listResize
  split
  · rw [List.getD_eq_getElem?_getD, List.getD_eq_getElem?_getD, List.getElem?_take,
      if_pos hi]
  · rw [List.getD_eq_getElem?_getD, List.getD_eq_getElem?_getD,
      List.getElem?_append, if_pos hl]

theorem listResize_getD_pad {α : Type} (l : List α) (n i : Nat) (pad d : α)
    (hi : i < n) (hl : l.length ≤ i) :
    (listResize l n pad).getD i d = pad := by
  unfold listResize
  split
  · omega
  · rw [List.getD_eq_getElem?_getD, List.getElem?_append_right hl,
      List.getElem?_replicate, if_pos (by omega)]
    rfl

theorem freshHandles_succ (start n : Nat) :
    freshHandles start (n + 1) = start :: freshHandles (start + 1) n := by
  unfold freshHandles
  rw [List.range_succ_eq_map]
  simp [List.map_map, Function.comp]
  intro a _
  omega

theorem growGo_eq (fuel : Nat) :
    ∀ inner next, growGo fuel inner next = (inner ++ freshHandles next fuel, next + fuel) := by
  induction fuel with
  | zero => intro inner next; simp [growGo, freshHandles]
  | succ n ih =>
    intro inner next
    rw [growGo, ih, freshHandles_succ]
    simp [List.append_assoc]
    omega

theorem growTo_eq (inner : List Nat) (next m : Nat) :
    growTo inner next m =
      (inner ++ freshHandles next (m + 1 - inner.length),
       next + (m + 1 - inner.length)) := by
  unfold growTo
  exact growGo_eq _ inner next

theorem freshHandles_length (start n : Nat) : (freshHandles start n).length = n := by
  simp [freshHandles]

theorem growTo_fst_length (inner : List Nat) (next m : Nat) :
    (growTo inner next m).1.length = max inner.length (m + 1) := by
  rw [growTo_eq]
  simp [freshHandles_length]
  omega

theorem getD_set_self {α : Type} (l : List α) (i : Nat) (v d : α) (h : i < l.length) :
    (l.set i v).getD i d = v := by
  rw [List.getD_eq_getElem?_getD, List.getElem?_set_eq_of_lt _ h]
  rfl

theorem foldl_usc_imagesInFlight (k : Nat) (l : List Nat) (d : AppData) :
    (l.foldl (fun d i => (updateSecondaryCommandBuffer d k i).1) d).imagesInFlight
      = d.imagesInFlight := by
  induction l generalizing d with
  | nil => rfl
  | cons x xs ih => simp only [List.foldl_cons]; rw [ih]; rfl

theorem foldl_usc_inFlightFences (k : Nat) (l : List Nat) (d : AppData) :
    (l.foldl (fun d i => (updateSecondaryCommandBuffer d k i).1) d).inFlightFences
      = d.inFlightFences := by
  induction l generalizing d with
  | nil => rfl
  | cons x xs ih => simp only [List.foldl_cons]; rw [ih]; rfl

theorem foldl_usc_commandBuffers (k : Nat) (l : List Nat) (d : AppData) :
    (l.foldl (fun d i => (updateSecondaryCommandBuffer d k i).1) d).commandBuffers
      = d.commandBuffers := by
  induction l generalizing d with
  | nil => rfl
  | cons x xs ih => simp only [List.foldl_cons]; rw [ih]; rfl

theorem foldl_usc_swapchainImageCount (k : Nat) (l : List Nat) (d : AppData) :
    (l.foldl (fun d i => (updateSecondaryCommandBuffer d k i).1) d).swapchainImageCount
      = d.swapchainImageCount := by
  induction l generalizing d with
  | nil => rfl
  | cons x xs ih => simp only [List.foldl_cons]; rw [ih]; rfl

theorem updateCommandBuffer_imagesInFlight (a : App) (k : Nat) :
    (updateCommandBuffer a k).data.imagesInFlight = a.data.imagesInFlight :=
  foldl_usc_imagesInFlight k _ _

theorem updateCommandBuffer_inFlightFences (a : App) (k : Nat) :
    (updateCommandBuffer a k).data.inFlightFences = a.data.inFlightFences :=
  foldl_usc_inFlightFences k _ _

theorem updateCommandBuffer_commandBuffers (a : App) (k : Nat) :
    (updateCommandBuffer a k).data.commandBuffers = a.data.commandBuffers :=
  foldl_usc_commandBuffers k _ _

theorem updateCommandBuffer_swapchainImageCount (a : App) (k : Nat) :
    (updateCommandBuffer a k).data.swapchainImageCount
      = a.data.swapchainImageCount :=
  foldl_usc_swapchainImageCount k _ _

theorem updateCommandBuffer_frame (a : App) (k : Nat) :
    (updateCommandBuffer a k).frame = a.frame := rfl

theorem updateCommandBuffer_resized (a : App) (k : Nat) :
    (updateCommandBuffer a k).resized = a.resized := rfl

theorem updateCommandBuffer_models (a : App) (k : Nat) :
    (updateCommandBuffer a k).models = a.models := rfl

/-- A concrete app state as it is after startup with two swapchain images:
empty images-in-flight table entries, two real (non-null) in-flight fences,
one primary command buffer and pool per image, empty secondary lists. -/
def sampleData : AppData :=
  { swapchainImageCount := 2
    imagesInFlight := [Fence.null, Fence.null]
    inFlightFences := [⟨1⟩, ⟨2⟩]
    commandBuffers := [10, 11]
    commandPools := [20, 21]
    secondaryCommandBuffers := [[], []]
    nextHandle := 100 }

/-- `sampleData` wrapped in an `App` with no pending resize. -/
def sampleApp : App :=
  { data := sampleData, frame := 0, resized := false, models := 1 }

/-- `sampleData` wrapped in an `App` whose resize flag is set. -/
def resizedApp : App :=
  { data := sampleData, frame := 0, resized := true, models := 1 }

/-- An environment where acquisition yields image 0 and presentation
succeeds normally; recreation (if any) yields two images again. -/
def okPresentEnv : RenderEnv :=
  { acquire := AcquireResult.ok 0, present := PresentOutcome.success, newImageCount := 2 }

/-- C7: after `recreate_swapchain` completes, the images-in-flight table
length equals the new swapchain image count.  The state `a` is arbitrary,
so this holds after every recreation of any sequence of resize events. -/
theorem recreate_imagesInFlight_length (env : RenderEnv) (a : App) :
    (recreateSwapchain env a).1.data.imagesInFlight.length
      = (recreateSwapchain env a).1.data.swapchainImageCount := by
  simp only [recreateSwapchain, createCommandBuffers]
  exact listResize_length _ _ _

/-- A state entering recreation with a non-null fence (handle 5) recorded
for swapchain image 0. -/
def staleFenceApp : App :=
  { data := { sampleData with imagesInFlight := [⟨5⟩, Fence.null] }
    frame := 0, resized := false, models := 1 }

/-- An environment whose recreation yields two swapchain images. -/
def twoImageEnv : RenderEnv :=
  { acquire := AcquireResult.ok 0, present := PresentOutcome.success, newImageCount := 2 }

/-- C2 counterexample: recreation with an old table `[fence 5, null]` and
new image count 2 leaves the table at `[fence 5, null]` — the non-null
entry survives, so not every entry is the null fence afterwards. -/
theorem recreate_keeps_stale_fence :
    (recreateSwapchain twoImageEnv staleFenceApp).1.data.imagesInFlight
      = [⟨5⟩, Fence.null] ∧
    ¬ (∀ f ∈ (recreateSwapchain twoImageEnv staleFenceApp).1.data.imagesInFlight,
        f = Fence.null) := by
  constructor
  · decide
  · decide

/-- C2 (amended): recreation resizes the table to the new image count with
`Vec::resize` semantics — newly added entries (indices at or above the old
length) are the null fence, but entries below both the old length and the
new count keep whatever fence they held before; they are not reset. -/
theorem recreate_imagesInFlight_resize_semantics (env : RenderEnv) (a : App) :
    (recreateSwapchain env a).1.data.imagesInFlight.length = env.newImageCount ∧
    (∀ i, i < env.newImageCount → a.data.imagesInFlight.length ≤ i →
      (recreateSwapchain env a).1.data.imagesInFlight.getD i Fence.null
        = Fence.null) ∧
    (∀ i, i < env.newImageCount → i < a.data.imagesInFlight.length →
      (recreateSwapchain env a).1.data.imagesInFlight.getD i Fence.null
        = a.data.imagesInFlight.getD i Fence.null) := by
  refine ⟨?_, ?_, ?_⟩
  · simp only [recreateSwapchain, createCommandBuffers]
    exact listResize_length _ _ _
  · intro i h1 h2
    simp only [recreateSwapchain, createCommandBuffers]
    exact listResize_getD_pad _ _ _ _ _ h1 h2
  · intro i h1 h2
    simp only [recreateSwapchain, createCommandBuffers]
    exact listResize_getD_keep _ _ _ _ _ h1 h2

/-- Witness for the amended C2 at a concrete input: recreating
`staleFenceApp` with new image count 3 keeps the stale fence 5 at index 0
and pads index 2 with the null fence. -/
theorem recreate_imagesInFlight_resize_semantics_witness :
    ((recreateSwapchain { twoImageEnv with newImageCount := 3 } staleFenceApp).1.data.imagesInFlight.getD 2 Fence.null = Fence.null) ∧
    ((recreateSwapchain { twoImageEnv with newImageCount := 3 } staleFenceApp).1.data.imagesInFlight.getD 0 Fence.null
      = staleFenceApp.data.imagesInFlight.getD 0 Fence.null) :=
  ⟨(recreate_imagesInFlight_resize_semantics _ staleFenceApp).2.1 2 (by decide) (by decide),
   (recreate_imagesInFlight_resize_semantics _ staleFenceApp).2.2 0 (by decide) (by decide)⟩

/-- C3: the `resized` flag is never cleared by `render`: starting from a
state with the flag set, a render with a successful acquire and present
recreates the swapchain, leaves the flag set, and the next render — with
no new resize notification — recreates the swapchain again. -/
theorem resize_flag_never_cleared :
    ((render okPresentEnv resizedApp).2.2.any isIdleEvent = true) ∧
    ((render okPresentEnv resizedApp).2.1.resized = true) ∧
    ((render okPresentEnv (render okPresentEnv resizedApp).2.1).2.2.any isIdleEvent
      = true) ∧
    ((render okPresentEnv (render okPresentEnv resizedApp).2.1).2.1.resized
      = true) := by
  refine ⟨?_, ?_, ?_, ?_⟩ <;> decide

theorem find?_append_eq {α : Type} (p : α → Bool) (l₁ l₂ : List α) :
    (l₁ ++ l₂).find? p =
      match l₁.find? p with
      | some x => some x
      | none => l₂.find? p := by
  induction l₁ with
  | nil => simp
  | cons a l ih =>
    cases hpa : p a with
    | true => simp [List.find?, hpa]
    | false => simp [List.find?, hpa, ih]

theorem find?_range_none {p : Nat → Bool} :
    ∀ {n}, (List.range n).find? p = none → ∀ j, j < n → p j = false := by
  intro n
  induction n with
  | zero => intro _ j hj; omega
  | succ m ih =>
    intro h j hj
    rw [List.range_succ, find?_append_eq] at h
    cases hfm : (List.range m).find? p with
    | some x => rw [hfm] at h; simp at h
    | none =>
      rw [hfm] at h
      simp only [List.find?] at h
      cases hpm : p m with
      | true => rw [hpm] at h; simp at h
      | false =>
        rcases Nat.lt_succ_iff_lt_or_eq.mp hj with h' | h'
        · exact ih hfm j h'
        · rw [h']; exact hpm

theorem find?_range_some {p : Nat → Bool} :
    ∀ {n i}, (List.range n).find? p = some i →
      i < n ∧ p i = true ∧ ∀ j, j < i → p j = false := by
  intro n
  induction n with
  | zero => intro i h; simp [List.range_zero] at h
  | succ m ih =>
    intro i h
    rw [List.range_succ, find?_append_eq] at h
    cases hfm : (List.range m).find? p with
    | some x =>
      rw [hfm] at h
      simp only [Option.some.injEq] at h
      subst h
      obtain ⟨h1, h2, h3⟩ := ih hfm
      exact ⟨by omega, h2, h3⟩
    | none =>
      rw [hfm] at h
      simp only [List.find?] at h
      cases hpm : p m with
      | true =>
        rw [hpm] at h
        simp only [Option.some.injEq] at h
        subst h
        exact ⟨by omega, hpm, fun j hj => find?_range_none hfm j hj⟩
      | false => rw [hpm] at h; simp at h

/-- C8: `get_memory_type_index` returns the smallest index whose bit is set
in the resource's `memory_type_bits` and whose memory type's property flags
contain the requested flags; it reports failure exactly when no index below
`memory_type_count` qualifies; and on types `[DEVICE_LOCAL,
HOST_VISIBLE|HOST_COHERENT]` with requirements bitmask `{1, 3}` (= 10),
requesting `HOST_VISIBLE|HOST_COHERENT` selects index 1, never 0. -/
theorem getMemoryTypeIndex_smallest_suitable (memoryTypes : List Nat)
    (properties bits : Nat) :
    (∀ i, getMemoryTypeIndex memoryTypes properties bits = some i →
      i < memoryTypes.length ∧
      memoryTypeSuits memoryTypes properties bits i = true ∧
      ∀ j, j < i → memoryTypeSuits memoryTypes properties bits j = false) ∧
    (getMemoryTypeIndex memoryTypes properties bits = none ↔
      ∀ j, j < memoryTypes.length →
        memoryTypeSuits memoryTypes properties bits j = false) ∧
    getMemoryTypeIndex [DEVICE_LOCAL, HOST_VISIBLE ||| HOST_COHERENT]
      (HOST_VISIBLE ||| HOST_COHERENT) 10 = some 1 := by
  refine ⟨?_, ⟨?_, ?_⟩, ?_⟩
  · intro i h
    exact find?_range_some h
  · intro h j hj
    exact find?_range_none h j hj
  · intro h
    cases hf : getMemoryTypeIndex memoryTypes properties bits with
    | none => rfl
    | some i =>
      obtain ⟨h1, h2, _⟩ := find?_range_some (p := fun i =>
        memoryTypeSuits memoryTypes properties bits i) hf
      rw [h i h1] at h2
      simp at h2
  · decide

/-- Witness for C8 at the concrete input of the claim: index 1 is selected,
is suitable, and index 0 is not suitable. -/
theorem getMemoryTypeIndex_smallest_suitable_witness :
    (1 : Nat) < ([DEVICE_LOCAL, HOST_VISIBLE ||| HOST_COHERENT] : List Nat).length ∧
    memoryTypeSuits [DEVICE_LOCAL, HOST_VISIBLE ||| HOST_COHERENT]
      (HOST_VISIBLE ||| HOST_COHERENT) 10 1 = true ∧
    ∀ j, j < 1 → memoryTypeSuits [DEVICE_LOCAL, HOST_VISIBLE ||| HOST_COHERENT]
      (HOST_VISIBLE ||| HOST_COHERENT) 10 j = false :=
  (getMemoryTypeIndex_smallest_suitable [DEVICE_LOCAL, HOST_VISIBLE ||| HOST_COHERENT]
    (HOST_VISIBLE ||| HOST_COHERENT) 10).1 1 (by decide)

theorem getD_set_ne {α : Type} (l : List α) (i k : Nat) (v d : α) (h : i ≠ k) :
    (l.set k v).getD i d = l.getD i d := by
  rw [List.getD_eq_getElem?_getD, List.getD_eq_getElem?_getD,
    List.getElem?_set_ne (by omega)]

theorem listResize_getD_at {α : Type} (l : List α) (k : Nat) (pad : α) :
    (listResize l (k + 1) pad).getD k pad = l.getD k pad := by
  by_cases h : k < l.length
  · exact listResize_getD_keep l (k + 1) k pad pad (by omega) h
  · rw [listResize_getD_pad l (k + 1) k pad pad (by omega) (by omega),
      List.getD_eq_default _ _ (by omega)]

/-- A startup-shaped state with three swapchain images: the secondary
command-buffer table is `[[], [], []]` as `create_command_buffers` leaves
it. -/
def threeImageData : AppData :=
  { swapchainImageCount := 3
    imagesInFlight := [Fence.null, Fence.null, Fence.null]
    inFlightFences := [⟨1⟩, ⟨2⟩]
    commandBuffers := [10, 11, 12]
    commandPools := [20, 21, 22]
    secondaryCommandBuffers := [[], [], []]
    nextHandle := 100 }

/-- C4 counterexample: with three swapchain images, recording image 0,
model 0 shrinks the outer secondary-command-buffer table from 3 entries to
1 — `resize_with(image_index + 1, Vec::new)` truncates, so the list
lengths of the other image indices do not stay unchanged. -/
theorem updateSecondary_truncates_other_images :
    ((updateSecondaryCommandBuffer threeImageData 0 0).1.secondaryCommandBuffers.length
      = 1) ∧
    threeImageData.secondaryCommandBuffers.length = 3 := by
  constructor
  · decide
  · decide

/-- C4 (amended): recording image `k`, model `m` first resizes the outer
per-image table to exactly `k + 1` entries — entries below `k` are kept,
entries above `k` are discarded — and then only grows image `k`'s own
list: the previous list for image `k` stays as a prefix and exactly the
fresh buffers needed to cover `m` are appended, so that list never
shrinks and its buffers are reused; the buffer at `m` is returned. -/
theorem updateSecondary_growth (d : AppData) (k m : Nat) :
    ((updateSecondaryCommandBuffer d k m).1.secondaryCommandBuffers.length = k + 1) ∧
    (∀ i, i < k →
      (updateSecondaryCommandBuffer d k m).1.secondaryCommandBuffers.getD i []
        = d.secondaryCommandBuffers.getD i []) ∧
    ((updateSecondaryCommandBuffer d k m).1.secondaryCommandBuffers.getD k []
      = d.secondaryCommandBuffers.getD k [] ++
        freshHandles d.nextHandle (m + 1 - (d.secondaryCommandBuffers.getD k []).length)) ∧
    (((updateSecondaryCommandBuffer d k m).1.secondaryCommandBuffers.getD k []).length
      = max (d.secondaryCommandBuffers.getD k []).length (m + 1)) ∧
    (m < ((updateSecondaryCommandBuffer d k m).1.secondaryCommandBuffers.getD k []).length) ∧
    ((updateSecondaryCommandBuffer d k m).2
      = ((updateSecondaryCommandBuffer d k m).1.secondaryCommandBuffers.getD k []).getD m 0) := by
  have houter : (updateSecondaryCommandBuffer d k m).1.secondaryCommandBuffers
      = (listResize d.secondaryCommandBuffers (k + 1) []).set k
          (growTo ((listResize d.secondaryCommandBuffers (k + 1) []).getD k [])
            d.nextHandle m).1 := rfl
  have hinner : (listResize d.secondaryCommandBuffers (k + 1) []).getD k []
      = d.secondaryCommandBuffers.getD k [] := listResize_getD_at _ _ _
  have hlen : ((listResize d.secondaryCommandBuffers (k + 1) []).set k
      (growTo ((listResize d.secondaryCommandBuffers (k + 1) []).getD k [])
        d.nextHandle m).1).length = k + 1 := by
    rw [List.length_set, listResize_length]
  have hgetk : (updateSecondaryCommandBuffer d k m).1.secondaryCommandBuffers.getD k []
      = (growTo (d.secondaryCommandBuffers.getD k []) d.nextHandle m).1 := by
    rw [houter, ← hinner]
    exact getD_set_self _ _ _ _ (by rw [listResize_length]; omega)
  refine ⟨?_, ?_, ?_, ?_, ?_, ?_⟩
  · rw [houter]; exact hlen
  · intro i hi
    rw [houter, getD_set_ne _ _ _ _ _ (by omega)]
    by_cases hl : i < d.secondaryCommandBuffers.length
    · exact listResize_getD_keep _ _ _ _ _ (by omega) hl
    · rw [listResize_getD_pad _ _ _ _ _ (by omega) (by omega),
        List.getD_eq_default _ _ (by omega)]
  · rw [hgetk, growTo_eq]
  · rw [hgetk, growTo_fst_length]
  · rw [hgetk, growTo_fst_length]; omega
  · rw [hgetk]; rw [show (updateSecondaryCommandBuffer d k m).2
      = (growTo ((listResize d.secondaryCommandBuffers (k + 1) []).getD k [])
          d.nextHandle m).1.getD m 0 from rfl, hinner]

/-- Witness for the amended C4: recording image 2, model 1 on the
three-image startup state keeps image 0's (empty) list, sets the outer
table length to 3, grows image 2's list to two fresh buffers, and returns
the second one. -/
theorem updateSecondary_growth_witness :
    ((updateSecondaryCommandBuffer threeImageData 2 1).1.secondaryCommandBuffers.length
      = 3) ∧
    ((updateSecondaryCommandBuffer threeImageData 2 1).1.secondaryCommandBuffers.getD 0 []
      = threeImageData.secondaryCommandBuffers.getD 0 []) ∧
    ((updateSecondaryCommandBuffer threeImageData 2 1).1.secondaryCommandBuffers.getD 2 []
      = threeImageData.secondaryCommandBuffers.getD 2 [] ++
        freshHandles threeImageData.nextHandle
          (1 + 1 - (threeImageData.secondaryCommandBuffers.getD 2 []).length)) ∧
    ((updateSecondaryCommandBuffer threeImageData 2 1).2
      = ((updateSecondaryCommandBuffer threeImageData 2 1).1.secondaryCommandBuffers.getD 2 []).getD 1 0) :=
  ⟨(updateSecondary_growth threeImageData 2 1).1,
   (updateSecondary_growth threeImageData 2 1).2.1 0 (by decide),
   (updateSecondary_growth threeImageData 2 1).2.2.1,
   (updateSecondary_growth threeImageData 2 1).2.2.2.2.2⟩

/-- Environment where acquisition reports `ERROR_OUT_OF_DATE_KHR`. -/
def outOfDateEnv : RenderEnv :=
  { acquire := AcquireResult.outOfDate, present := PresentOutcome.success
    newImageCount := 2 }

/-- C5: when acquisition reports an out-of-date swapchain, render returns
`recreate_swapchain`'s (successful) result at once and abandons the frame:
the post state is exactly the recreated one, the frame counter is
unchanged, and the trace holds no command-buffer recording, no uniform
write, no fence reset, no submission and no presentation. -/
theorem render_acquire_out_of_date_abandons (env : RenderEnv) (a : App)
    (h : env.acquire = AcquireResult.outOfDate) :
    (render env a).1 = Except.ok () ∧
    (render env a).2.1 = (recreateSwapchain env a).1 ∧
    (render env a).2.1.frame = a.frame ∧
    ((render env a).2.2.any isRecordEvent = false) ∧
    ((render env a).2.2.any isUniformWriteEvent = false) ∧
    ((render env a).2.2.any isResetFenceEvent = false) ∧
    ((render env a).2.2.any isSubmitEvent = false) ∧
    ((render env a).2.2.any isPresentEvent = false) := by
  simp [render, h, recreateSwapchain, isRecordEvent, isUniformWriteEvent,
    isResetFenceEvent, isSubmitEvent, isPresentEvent]

/-- Witness for C5: the out-of-date acquisition path on the sample state. -/
theorem render_acquire_out_of_date_abandons_witness :
    (render outOfDateEnv sampleApp).1 = Except.ok () ∧
    (render outOfDateEnv sampleApp).2.1 = (recreateSwapchain outOfDateEnv sampleApp).1 ∧
    (render outOfDateEnv sampleApp).2.1.frame = sampleApp.frame ∧
    ((render outOfDateEnv sampleApp).2.2.any isRecordEvent = false) ∧
    ((render outOfDateEnv sampleApp).2.2.any isUniformWriteEvent = false) ∧
    ((render outOfDateEnv sampleApp).2.2.any isResetFenceEvent = false) ∧
    ((render outOfDateEnv sampleApp).2.2.any isSubmitEvent = false) ∧
    ((render outOfDateEnv sampleApp).2.2.any isPresentEvent = false) :=
  render_acquire_out_of_date_abandons outOfDateEnv sampleApp rfl

/-- Environment where presentation fails with a fatal error code 42
(e.g. device lost). -/
def presentErrEnv : RenderEnv :=
  { acquire := AcquireResult.ok 0, present := PresentOutcome.err 42
    newImageCount := 2 }

/-- C6 counterexample: with the resize flag set, a fatal presentation
error (code 42) is NOT propagated from render — the recreation branch wins
and render returns success, discarding the error. -/
theorem render_present_error_swallowed_when_resized :
    (render presentErrEnv resizedApp).1 = Except.ok () ∧
    ((render presentErrEnv resizedApp).2.2.any isIdleEvent = true) := by
  refine ⟨rfl, by decide⟩

/-- C6 (amended): an out-of-date or suboptimal presentation result is never
returned from render as an error — it triggers recreation after this
frame's work was submitted and presentation was attempted once — and so
does the resize flag; any other presentation failure is propagated from
render as an error provided the resize flag is not set (when the flag is
set, the recreation branch wins and the error is discarded). -/
theorem render_present_outcome_policy (env : RenderEnv) (a : App) (k e : Nat)
    (hacq : env.acquire = AcquireResult.ok k) :
    (presentChanged env.present = true →
      (render env a).1 = Except.ok () ∧
      submitBeforeIdle (render env a).2.2 = true ∧
      presentBeforeIdle (render env a).2.2 = true ∧
      ((render env a).2.2.any isIdleEvent = true)) ∧
    (a.resized = true →
      (render env a).1 = Except.ok () ∧
      ((render env a).2.2.any isIdleEvent = true)) ∧
    (a.resized = false → env.present = PresentOutcome.err e →
      (render env a).1 = Except.error e ∧
      ((render env a).2.2.any isIdleEvent = false)) := by
  refine ⟨?_, ?_, ?_⟩
  · intro hch
    by_cases hz : (a.data.imagesInFlight[k]?.getD Fence.null).isNull = true <;>
      simp [render, hacq, renderAcquired, updateCommandBuffer_resized, hch, hz,
        submitBeforeIdle, presentBeforeIdle, isIdleEvent, recreateSwapchain]
  · intro hres
    by_cases hz : (a.data.imagesInFlight[k]?.getD Fence.null).isNull = true <;>
      simp [render, hacq, renderAcquired, updateCommandBuffer_resized, hres, hz,
        isIdleEvent, recreateSwapchain]
  · intro hres hpres
    by_cases hz : (a.data.imagesInFlight[k]?.getD Fence.null).isNull = true <;>
      simp [render, hacq, renderAcquired, updateCommandBuffer_resized, hres,
        hpres, hz, presentChanged, isIdleEvent]

theorem render_after_success_state (env : RenderEnv) (a : App) (k : Nat)
    (h : env.acquire = AcquireResult.ok k) (hres : a.resized = false)
    (hch : presentChanged env.present = false) :
    (render env a).2.1.data.imagesInFlight
      = a.data.imagesInFlight.set k (a.data.inFlightFences.getD a.frame Fence.null) ∧
    (render env a).2.1.data.inFlightFences = a.data.inFlightFences ∧
    (render env a).2.1.resized = a.resized := by
  cases hp : env.present
  case suboptimal => rw [hp] at hch; simp [presentChanged] at hch
  case outOfDate => rw [hp] at hch; simp [presentChanged] at hch
  all_goals
    simp [render, h, renderAcquired, hres, hp, presentChanged,
      updateCommandBuffer_imagesInFlight, updateCommandBuffer_inFlightFences,
      updateCommandBuffer_resized]

theorem render_any_submitTo (env : RenderEnv) (a : App) (k : Nat)
    (h : env.acquire = AcquireResult.ok k) :
    (render env a).2.2.any (isSubmitTo k) = true := by
  cases hp : env.present <;> by_cases hr : a.resized = true <;>
    by_cases hz : (a.data.imagesInFlight[k]?.getD Fence.null).isNull = true <;>
    simp [render, h, renderAcquired, hp, hr, hz, presentChanged, isSubmitTo,
      updateCommandBuffer_resized, recreateSwapchain]

theorem render_any_submitWithCb (env : RenderEnv) (a : App) (k : Nat)
    (h : env.acquire = AcquireResult.ok k) :
    (render env a).2.2.any
      (isSubmitWithCb k (a.data.commandBuffers.getD k 0)) = true := by
  cases hp : env.present <;> by_cases hr : a.resized = true <;>
    by_cases hz : (a.data.imagesInFlight[k]?.getD Fence.null).isNull = true <;>
    simp [render, h, renderAcquired, hp, hr, hz, presentChanged, isSubmitWithCb,
      updateCommandBuffer_resized, updateCommandBuffer_commandBuffers,
      recreateSwapchain]

theorem render_hazard_wait (env : RenderEnv) (b : App) (k : Nat)
    (h : env.acquire = AcquireResult.ok k)
    (hnz : (b.data.imagesInFlight.getD k Fence.null).isNull = false) :
    waitBeforeSubmit (b.data.imagesInFlight.getD k Fence.null)
      (render env b).2.2 = true := by
  simp only [List.getD_eq_getElem?_getD] at hnz
  cases hp : env.present <;> by_cases hr : b.resized = true <;>
    simp [render, h, renderAcquired, hp, hr, hnz, presentChanged,
      waitBeforeSubmit, updateCommandBuffer_resized, recreateSwapchain]

/-- C1: before a frame submission targets acquired image `k`: if the
images-in-flight table holds a non-null fence for `k`, render waits on that
fence before the submission, and records the current frame slot's in-flight
fence as `k`'s owner in the table; hence when two successive renders both
acquire image `k` (the first one completing normally), the second waits on
the fence the first recorded — the prior owner's fence — before its own
submission. -/
theorem render_waits_prior_image_owner (env1 env2 : RenderEnv) (a : App) (k : Nat)
    (h1 : env1.acquire = AcquireResult.ok k)
    (h2 : env2.acquire = AcquireResult.ok k)
    (h3 : k < a.data.imagesInFlight.length)
    (h4 : (a.data.inFlightFences.getD a.frame Fence.null).isNull = false)
    (h5 : a.resized = false)
    (h6 : env1.present = PresentOutcome.success) :
    ((a.data.imagesInFlight.getD k Fence.null).isNull = false →
      waitBeforeSubmit (a.data.imagesInFlight.getD k Fence.null)
        (render env1 a).2.2 = true) ∧
    ((render env1 a).2.2.any (isSubmitTo k) = true) ∧
    ((render env1 a).2.1.data.imagesInFlight.getD k Fence.null
      = a.data.inFlightFences.getD a.frame Fence.null) ∧
    (waitBeforeSubmit (a.data.inFlightFences.getD a.frame Fence.null)
      (render env2 (render env1 a).2.1).2.2 = true) ∧
    ((render env2 (render env1 a).2.1).2.2.any (isSubmitTo k) = true) := by
  have hch1 : presentChanged env1.present = false := by rw [h6]; rfl
  obtain ⟨hTab, hFen, hRes⟩ := render_after_success_state env1 a k h1 h5 hch1
  have hpostTab : (render env1 a).2.1.data.imagesInFlight.getD k Fence.null
      = a.data.inFlightFences.getD a.frame Fence.null := by
    rw [hTab]; exact getD_set_self _ _ _ _ h3
  refine ⟨?_, render_any_submitTo env1 a k h1, hpostTab, ?_,
    render_any_submitTo env2 _ k h2⟩
  · intro hnz
    exact render_hazard_wait env1 a k h1 hnz
  · have hw := render_hazard_wait env2 (render env1 a).2.1 k h2
      (by rw [hpostTab]; exact h4)
    rw [hpostTab] at hw
    exact hw

/-- Witness for C1: two successive renders on the stale-fence sample state,
both acquiring image 0 with successful presentation. -/
theorem render_waits_prior_image_owner_witness :
    ((staleFenceApp.data.imagesInFlight.getD 0 Fence.null).isNull = false →
      waitBeforeSubmit (staleFenceApp.data.imagesInFlight.getD 0 Fence.null)
        (render okPresentEnv staleFenceApp).2.2 = true) ∧
    ((render okPresentEnv staleFenceApp).2.2.any (isSubmitTo 0) = true) ∧
    ((render okPresentEnv staleFenceApp).2.1.data.imagesInFlight.getD 0 Fence.null
      = staleFenceApp.data.inFlightFences.getD 0 Fence.null) ∧
    (waitBeforeSubmit (staleFenceApp.data.inFlightFences.getD 0 Fence.null)
      (render okPresentEnv (render okPresentEnv staleFenceApp).2.1).2.2 = true) ∧
    ((render okPresentEnv (render okPresentEnv staleFenceApp).2.1).2.2.any
      (isSubmitTo 0) = true) :=
  render_waits_prior_image_owner okPresentEnv okPresentEnv staleFenceApp 0
    rfl rfl (by decide) (by decide) rfl rfl

/-- Environment whose presentation reports `SUBOPTIMAL_KHR`. -/
def suboptimalEnv : RenderEnv :=
  { acquire := AcquireResult.ok 0, present := PresentOutcome.suboptimal
    newImageCount := 2 }

/-- Witness for the amended C6: a suboptimal presentation yields success
with submission and presentation before the recreation, and a fatal
presentation error with the resize flag clear is propagated. -/
theorem render_present_outcome_policy_witness :
    ((render suboptimalEnv sampleApp).1 = Except.ok () ∧
     submitBeforeIdle (render suboptimalEnv sampleApp).2.2 = true ∧
     presentBeforeIdle (render suboptimalEnv sampleApp).2.2 = true ∧
     ((render suboptimalEnv sampleApp).2.2.any isIdleEvent = true)) ∧
    ((render presentErrEnv sampleApp).1 = Except.error 42 ∧
     ((render presentErrEnv sampleApp).2.2.any isIdleEvent = false)) :=
  ⟨(render_present_outcome_policy suboptimalEnv sampleApp 0 42 rfl).1 rfl,
   (render_present_outcome_policy presentErrEnv sampleApp 0 42 rfl).2.2 rfl rfl⟩

/-- C10: `recreate_swapchain`'s call to `create_command_buffers` appends
exactly one new primary command buffer per (new) swapchain image to the
existing list without clearing it, so the list length grows by the image
count instead of equaling it; the previously allocated buffers keep their
positions, and a following render that acquires image `k` submits the
buffer still at position `k` — for `k` below the startup count this is the
buffer allocated at startup, so the appended buffers are never submitted. -/
theorem recreate_appends_primary_buffers (env env2 : RenderEnv) (a : App) (k : Nat)
    (hacq : env2.acquire = AcquireResult.ok k)
    (hk : k < a.data.commandBuffers.length) :
    ((recreateSwapchain env a).1.data.commandBuffers
      = a.data.commandBuffers ++ freshHandles a.data.nextHandle env.newImageCount) ∧
    ((recreateSwapchain env a).1.data.commandBuffers.length
      = a.data.commandBuffers.length + env.newImageCount) ∧
    ((recreateSwapchain env a).1.data.commandBuffers.getD k 0
      = a.data.commandBuffers.getD k 0) ∧
    ((render env2 (recreateSwapchain env a).1).2.2.any
      (isSubmitWithCb k (a.data.commandBuffers.getD k 0)) = true) := by
  have happ : (recreateSwapchain env a).1.data.commandBuffers
      = a.data.commandBuffers ++ freshHandles a.data.nextHandle env.newImageCount := rfl
  have hget : (recreateSwapchain env a).1.data.commandBuffers.getD k 0
      = a.data.commandBuffers.getD k 0 := by
    rw [happ, List.getD_eq_getElem?_getD, List.getElem?_append, if_pos hk,
      ← List.getD_eq_getElem?_getD]
  refine ⟨happ, ?_, hget, ?_⟩
  · rw [happ]
    simp [freshHandles_length]
  · have hs := render_any_submitWithCb env2 (recreateSwapchain env a).1 k hacq
    rw [hget] at hs
    exact hs

/-- Witness for C10: recreation on the sample state followed by a render of
image 0 submits the startup buffer 10, not one of the appended buffers. -/
theorem recreate_appends_primary_buffers_witness :
    ((recreateSwapchain twoImageEnv sampleApp).1.data.commandBuffers
      = sampleApp.data.commandBuffers ++
        freshHandles sampleApp.data.nextHandle twoImageEnv.newImageCount) ∧
    ((recreateSwapchain twoImageEnv sampleApp).1.data.commandBuffers.length
      = sampleApp.data.commandBuffers.length + twoImageEnv.newImageCount) ∧
    ((recreateSwapchain twoImageEnv sampleApp).1.data.commandBuffers.getD 0 0
      = sampleApp.data.commandBuffers.getD 0 0) ∧
    ((render okPresentEnv (recreateSwapchain twoImageEnv sampleApp).1).2.2.any
      (isSubmitWithCb 0 (sampleApp.data.commandBuffers.getD 0 0)) = true) :=
  recreate_appends_primary_buffers twoImageEnv okPresentEnv sampleApp 0
    rfl (by decide)

/-- C9: the per-model placement transform built by
`update_secondary_command_buffer` is a pure function of its arguments (the
embedding is a function of `(model_index, cos, sin)` with the angle
`time * 90°`, so repeated calls with equal inputs give equal matrices); its
fourth column carries the translation `(0, (i mod 2) * 2.5 - 1.25,
(i div 2) * -2.0 + 1.0, 1)` for any rotation; its upper-left block is the
rotation about the vertical axis `(0,0,1)`; and at `model_index = 0`,
`time = 0` (cosine 1, sine 0) the matrix is exactly the translation by
`(0, -1.25, 1.0)` with rotation angle 0. -/
theorem modelPlacement_formula (i : Nat) (c s t : ℚ) (h : i < 4) :
    (modelPlacementMat i c s 0 3 = 0 ∧
     modelPlacementMat i c s 1 3 = ((i % 2 : Nat) : ℚ) * (5 / 2) - 5 / 4 ∧
     modelPlacementMat i c s 2 3 = ((i / 2 : Nat) : ℚ) * (-2) + 1 ∧
     modelPlacementMat i c s 3 3 = 1) ∧
    (modelPlacementMat i c s 0 0 = c ∧ modelPlacementMat i c s 0 1 = -s ∧
     modelPlacementMat i c s 1 0 = s ∧ modelPlacementMat i c s 1 1 = c ∧
     modelPlacementMat i c s 2 2 = 1) ∧
    rotationAngleDegrees t = t * 90 ∧
    (∀ j u v, j = i → u = c → v = s →
      modelPlacementMat j u v = modelPlacementMat i c s) ∧
    (modelPlacementMat 0 1 0 = translationMat 0 (-(5 / 4)) 1) ∧
    rotationAngleDegrees 0 = 0 := by
  refine ⟨⟨?_, ?_, ?_, ?_⟩, ⟨?_, ?_, ?_, ?_, ?_⟩, rfl, ?_, ?_, ?_⟩
  · simp [modelPlacementMat, matMul, identityMat, translationMat, rotZMat]
  · simp [modelPlacementMat, matMul, identityMat, translationMat, rotZMat, modelY]
  · simp [modelPlacementMat, matMul, identityMat, translationMat, rotZMat, modelZ]
  · simp [modelPlacementMat, matMul, identityMat, translationMat, rotZMat]
  · simp [modelPlacementMat, matMul, identityMat, translationMat, rotZMat]
  · simp [modelPlacementMat, matMul, identityMat, translationMat, rotZMat]
  · simp [modelPlacementMat, matMul, identityMat, translationMat, rotZMat]
  · simp [modelPlacementMat, matMul, identityMat, translationMat, rotZMat]
  · simp [modelPlacementMat, matMul, identityMat, translationMat, rotZMat]
  · intro j u v hj hu hv
    rw [hj, hu, hv]
  · funext r j
    fin_cases r <;> fin_cases j <;>
      simp +decide [modelPlacementMat, matMul, identityMat, translationMat,
        rotZMat, modelY, modelZ, Fin.ext_iff]
  · norm_num [rotationAngleDegrees]

/-- Witness for C9 at `model_index = 0`, `time = 0`, cosine 1, sine 0. -/
theorem modelPlacement_formula_witness :
    (0 : Nat) < 4 ∧
    ((modelPlacementMat 0 1 0 = translationMat 0 (-(5 / 4)) 1) ∧
     rotationAngleDegrees 0 = 0) :=
  ⟨by decide,
   ⟨(modelPlacement_formula 0 1 0 0 (by decide)).2.2.2.2.1,
    (modelPlacement_formula 0 1 0 0 (by decide)).2.2.2.2.2⟩⟩
